import Mathlib

/-!
Shallow embedding of `pudl/transform/epacems.py`: the EPA CEMS hourly
transform pipeline (timestamp resolution, schema harmonization,
gross-load correction, and the streaming driver), together with the
registry builder `_load_plant_utc_offset`.

DataFrames are modelled column-wise: a column that may be absent from a
batch (pandas: not in `df.columns`) is an `Option (List _)`; a nullable
Int64 column is a `List (Option Int)` with `none` as the NA sentinel.
Instants are counted in minutes since 1970-01-01T00:00:00Z; UTC offsets
are signed minutes (timedeltas), so non-whole-hour timezones are
representable.
-/

set_option autoImplicit false

namespace PudlEpacems

/-- A calendar date (proleptic Gregorian), the parsed form of the
`op_date` string column (format `%m-%d-%Y`). -/
structure Date where
  year : Int
  month : Int
  day : Int
deriving DecidableEq, Repr

/-- Days since 1970-01-01 of a civil date (standard civil-from-days
inverse algorithm; truncating `Int` division matches the source
formula's semantics for the CE years that appear in the data). This
models `pd.to_datetime(df.op_date, format="%m-%d-%Y", utc=True)`,
which places every parsed date at midnight. -/
def daysFromCivil (dt : Date) : Int :=
  let y := if dt.month ≤ 2 then dt.year - 1 else dt.year
  let era := (if 0 ≤ y then y else y - 399) / 400
  let yoe := y - era * 400
  let mp := (dt.month + 9) % 12
  let doy := (153 * mp + 2) / 5 + dt.day - 1
  let doe := yoe * 365 + yoe / 4 - yoe / 100 + doy
  era * 146097 + doe - 719468

/-- Midnight of a civil date, in minutes since the epoch. -/
def dateToMinutes (dt : Date) : Int :=
  daysFromCivil dt * 1440

/-- Convenience: a UTC instant (minutes since epoch) from civil
year/month/day plus hour and minute of day. -/
def utcMinutes (y m d hh mi : Int) : Int :=
  daysFromCivil ⟨y, m, d⟩ * 1440 + hh * 60 + mi

/-- A raw CEMS batch (one year-month-state dataframe) as it enters the
pipeline: `op_date`/`op_hour` still present, `facility_id` and
`unit_id_epa` possibly absent (they only exist after August 2008). -/
structure RawDF where
  plant_id_eia : List Int
  op_date : List Date
  op_hour : List Int
  gross_load_mw : List ℚ
  facility_id : Option (List (Option Int))
  unit_id_epa : Option (List (Option Int))
deriving DecidableEq, Repr

/-- A batch after `fix_up_dates`: `op_date`/`op_hour` are gone and the
single `operating_datetime_utc` column (minutes since epoch) replaced
them. -/
structure CleanDF where
  plant_id_eia : List Int
  operating_datetime_utc : List Int
  gross_load_mw : List ℚ
  facility_id : Option (List (Option Int))
  unit_id_epa : Option (List (Option Int))
deriving DecidableEq, Repr

/-- `df.shape[0]` of a clean batch. -/
def CleanDF.nrows (df : CleanDF) : Nat :=
  df.plant_id_eia.length

/-- Row lookup of `df.merge(plant_utc_offset, how="left",
on="plant_id_eia")`: the registry's `plant_id_eia` keys are unique
(they come from the `plants_entity_eia` primary key), so the left merge
attaches to each row the offset of the first matching registry entry,
or NA (`none`) when the plant is absent. -/
def lookupOffset (plant_utc_offset : List (Int × Int)) (p : Int) : Option Int :=
  (plant_utc_offset.find? (fun e => e.1 = p)).map Prod.snd

/-- `pandas.Series.unique()`: the distinct values of a column, keeping
the first occurrence of each, in order of appearance. -/
def pdUnique : List Int → List Int
  | [] => []
  | a :: l => a :: pdUnique (l.filter (fun x => decide (x ≠ a)))
termination_by l => l.length
decreasing_by
  simp only [List.length_cons, Nat.lt_succ_iff]
  exact List.length_filter_le _ _

/-- `fix_up_dates(df, plant_utc_offset)`: build `op_datetime_naive` as
the date's midnight (marked UTC) plus `op_hour` hours, left-merge the
plant's `utc_offset`, raise `ValueError` listing the distinct plants
whose offset is missing, otherwise set
`operating_datetime_utc = op_datetime_naive + utc_offset` and drop the
`op_date`/`op_hour`/intermediate columns. -/
def fix_up_dates (df : RawDF) (plant_utc_offset : List (Int × Int)) :
    Except (List Int) CleanDF :=
  let op_datetime_naive :=
    List.zipWith (fun d h => dateToMinutes d + h * 60) df.op_date df.op_hour
  let utc_offset := df.plant_id_eia.map (lookupOffset plant_utc_offset)
  if utc_offset.all Option.isSome then
    .ok { plant_id_eia := df.plant_id_eia
        , operating_datetime_utc :=
            List.zipWith (fun t o => t + o.getD 0) op_datetime_naive utc_offset
        , gross_load_mw := df.gross_load_mw
        , facility_id := df.facility_id
        , unit_id_epa := df.unit_id_epa }
  else
    let missing_plants :=
      pdUnique ((df.plant_id_eia.zip utc_offset).filterMap
        (fun po => if po.2.isNone then some po.1 else none))
    .error missing_plants

/-- `dropna()` over the two selected columns of the plants entity
table: a row survives iff both `plant_id_eia` and `timezone` are
non-missing. -/
def dropnaRow : Option Int × Option String → Option (Int × String)
  | (some p, some tz) => some (p, tz)
  | _ => none

/-- `_load_plant_utc_offset(pudl_engine)`. The plants entity table is
the function's external input, modelled as rows of optional
`(plant_id_eia, timezone)`. `tzOffsetJan1` models the external pytz
call `pytz.timezone(tz).localize(datetime(2011, 1, 1)).utcoffset()`:
the fixed offset (minutes) a named timezone has on January 1, with no
daylight-saving adjustment. Rows with a missing value are dropped,
then each timezone is resolved to its offset and the timezone column
deleted. -/
def _load_plant_utc_offset (tzOffsetJan1 : String → Int)
    (plants_entity : List (Option Int × Option String)) : List (Int × Int) :=
  let timezones := plants_entity.filterMap dropnaRow
  timezones.map (fun ptz => (ptz.1, tzOffsetJan1 ptz.2))

/-- `harmonize_eia_epa_orispl(df)`: the ORISPL-to-EIA plant id
reconciliation extension point, currently the identity. -/
def harmonize_eia_epa_orispl (df : RawDF) : RawDF :=
  df

/-- `add_facility_id_unit_id_epa(df)`: if either of `facility_id`,
`unit_id_epa` is absent, build a length-`nrows` all-NA Int64 column and
add it for each absent one; columns already present are untouched. -/
def add_facility_id_unit_id_epa (df : CleanDF) : CleanDF :=
  if df.facility_id.isNone ∨ df.unit_id_epa.isNone then
    let na_col : List (Option Int) := List.replicate df.nrows none
    { df with
      facility_id := some (df.facility_id.getD na_col)
      unit_id_epa := some (df.unit_id_epa.getD na_col) }
  else df

/-- `correct_gross_load_mw(df)`: mark rows with `gross_load_mw > 2000`
as bad and, if any exist, divide exactly those entries by 1000. -/
def correct_gross_load_mw (df : CleanDF) : CleanDF :=
  let bad := df.gross_load_mw.map (fun g => decide (2000 < g))
  if bad.any id then
    { df with
      gross_load_mw :=
        df.gross_load_mw.map (fun g => if 2000 < g then g / 1000 else g) }
  else df

/-- One batch through the per-batch pipe of `transform`:
`raw_df.fillna(pc.epacems_columns_fill_na_dict).pipe(harmonize_eia_epa_orispl).pipe(fix_up_dates, ...).pipe(add_facility_id_unit_id_epa).pipe(correct_gross_load_mw)`.
`fillna` — modelled from the spec: `pc.epacems_columns_fill_na_dict`
lives in `pudl.constants`, outside this tree; the spec describes it as
a configuration mapping field name to default value applied before any
other stage, so it is taken here as an abstract per-batch fill
function. -/
def transformBatch (fillna : RawDF → RawDF) (plant_utc_offset : List (Int × Int))
    (raw_df : RawDF) : Except (List Int) CleanDF :=
  Except.map (fun df => correct_gross_load_mw (add_facility_id_unit_id_epa df))
    (fix_up_dates (harmonize_eia_epa_orispl (fillna raw_df)) plant_utc_offset)

instance {ε α : Type} [DecidableEq ε] [DecidableEq α] : DecidableEq (Except ε α) :=
  fun x y =>
    match x, y with
    | .ok a, .ok b =>
      if h : a = b then isTrue (by rw [h]) else isFalse (by simp [h])
    | .error a, .error b =>
      if h : a = b then isTrue (by rw [h]) else isFalse (by simp [h])
    | .ok _, .error _ => isFalse (fun hc => Except.noConfusion hc)
    | .error _, .ok _ => isFalse (fun hc => Except.noConfusion hc)

/-- The value under `.ok`; an arbitrary empty batch on `.error` (used
only where the result is known to be `.ok`). -/
def okValue : Except (List Int) CleanDF → CleanDF
  | .ok df => df
  | .error _ => ⟨[], [], [], none, none⟩

/-- The driver's loop over the stream: each `(yr_st, raw_df)` pair is
pushed through the pipe and yielded back under its key; an exception in
a batch propagates and ends the stream with no further output. -/
def transformGo (fillna : RawDF → RawDF) (plant_utc_offset : List (Int × Int)) :
    List (String × RawDF) → Except (List Int) (List (String × CleanDF))
  | [] => .ok []
  | (yr_st, raw_df) :: rest =>
    match transformBatch fillna plant_utc_offset raw_df with
    | .error e => .error e
    | .ok df =>
      match transformGo fillna plant_utc_offset rest with
      | .error e => .error e
      | .ok out => .ok ((yr_st, df) :: out)

/-- `transform(pudl_engine, epacems_raw_dfs)`: build the offset
registry once via `_load_plant_utc_offset`, then walk the stream of
dicts, transforming every `(yr_st, raw_df)` item of every dict in
order. The stream of dataframe dicts is a finite list here; the
generator's laziness is outside the value-level model. -/
def transform (fillna : RawDF → RawDF) (tzOffsetJan1 : String → Int)
    (plants_entity : List (Option Int × Option String))
    (epacems_raw_dfs : List (List (String × RawDF))) :
    Except (List Int) (List (String × CleanDF)) :=
  let plant_utc_offset := _load_plant_utc_offset tzOffsetJan1 plants_entity
  transformGo fillna plant_utc_offset epacems_raw_dfs.flatten

/-! ## Helper lemmas -/

theorem mem_pdUnique {x : Int} : ∀ {l : List Int}, x ∈ pdUnique l ↔ x ∈ l
  | [] => by rw [pdUnique]
  | a :: l => by
    rw [pdUnique, List.mem_cons, List.mem_cons, mem_pdUnique, List.mem_filter]
    by_cases hx : x = a
    · simp [hx]
    · simp [hx]
termination_by l => l.length
decreasing_by
  simp only [List.length_cons, Nat.lt_succ_iff]
  exact List.length_filter_le _ _

theorem nodup_pdUnique : ∀ (l : List Int), (pdUnique l).Nodup
  | [] => by rw [pdUnique]; exact List.nodup_nil
  | a :: l => by
    rw [pdUnique]
    refine List.nodup_cons.mpr ⟨fun hmem => ?_, nodup_pdUnique _⟩
    have := (List.mem_filter.mp (mem_pdUnique.mp hmem)).2
    simp at this
termination_by l => l.length
decreasing_by
  simp only [List.length_cons, Nat.lt_succ_iff]
  exact List.length_filter_le _ _

theorem zip_map_filterMap_isNone (f : Int → Option Int) (l : List Int) :
    (l.zip (l.map f)).filterMap (fun po => if po.2.isNone then some po.1 else none) =
      l.filter (fun p => (f p).isNone) := by
  induction l with
  | nil => rfl
  | cons a l ih =>
    rw [List.map_cons, List.zip_cons_cons, List.filterMap_cons, List.filter_cons]
    cases h : (f a).isNone <;> simp_all

theorem map_lookup_all_isSome {reg : List (Int × Int)} {l : List Int}
    (h : ∀ p ∈ l, (lookupOffset reg p).isSome) :
    (l.map (lookupOffset reg)).all Option.isSome = true := by
  rw [List.all_eq_true]
  intro o ho
  obtain ⟨p, hp, rfl⟩ := List.mem_map.mp ho
  exact h p hp

/-! ## Claim theorems -/

/-- C4: `correct_gross_load_mw` maps every record's gross load `g` to
`g / 1000` when `g` exceeds the implausibility threshold 2000 and
leaves `g` unchanged otherwise, leaving every other column of the batch
unchanged; in particular 25000 becomes 25.0 and 1500 is unchanged. -/
theorem correct_gross_load_mw_spec :
    (∀ df : CleanDF,
      (correct_gross_load_mw df).gross_load_mw =
          df.gross_load_mw.map (fun g => if 2000 < g then g / 1000 else g) ∧
        (correct_gross_load_mw df).plant_id_eia = df.plant_id_eia ∧
        (correct_gross_load_mw df).operating_datetime_utc = df.operating_datetime_utc ∧
        (correct_gross_load_mw df).facility_id = df.facility_id ∧
        (correct_gross_load_mw df).unit_id_epa = df.unit_id_epa) ∧
    correct_gross_load_mw ⟨[10, 11], [0, 0], [25000, 1500], none, none⟩ =
      ⟨[10, 11], [0, 0], [25, 1500], none, none⟩ := by
  constructor
  · intro df
    obtain ⟨pl, odt, gl, fid, uid⟩ := df
    by_cases hany : (gl.map (fun g => decide (2000 < g))).any id = true
    · simp [correct_gross_load_mw, hany]
    · have hno : ∀ g ∈ gl, ¬(2000 < g) := by
        intro g hg hlt
        apply hany
        simp only [List.any_eq_true, List.mem_map, id_eq]
        exact ⟨decide (2000 < g), ⟨g, hg, rfl⟩, decide_eq_true hlt⟩
      have hred : correct_gross_load_mw ⟨pl, odt, gl, fid, uid⟩ =
          ⟨pl, odt, gl, fid, uid⟩ := by
        simp [correct_gross_load_mw, hany]
      rw [hred]
      refine ⟨?_, rfl, rfl, rfl, rfl⟩
      conv_lhs => rw [← List.map_id gl]
      refine List.map_congr_left fun g hg => ?_
      simp [hno g hg]
  · have h : correct_gross_load_mw ⟨[10, 11], [0, 0], [25000, 1500], none, none⟩ =
        ⟨[10, 11], [0, 0], [(25000 : ℚ) / 1000, 1500], none, none⟩ := rfl
    rw [h]
    norm_num

/-- C5: `add_facility_id_unit_id_epa` is total on any batch shape: each
of the two columns ends up present in the output, a column that was
absent is added with every value set to the Int64 NA sentinel, a column
already present passes through unchanged, and all other columns are
untouched. -/
theorem add_facility_id_unit_id_epa_total (df : CleanDF) :
    (add_facility_id_unit_id_epa df).facility_id =
        some (df.facility_id.getD (List.replicate df.nrows none)) ∧
      (add_facility_id_unit_id_epa df).unit_id_epa =
        some (df.unit_id_epa.getD (List.replicate df.nrows none)) ∧
      (add_facility_id_unit_id_epa df).plant_id_eia = df.plant_id_eia ∧
      (add_facility_id_unit_id_epa df).operating_datetime_utc =
        df.operating_datetime_utc ∧
      (add_facility_id_unit_id_epa df).gross_load_mw = df.gross_load_mw := by
  obtain ⟨pl, odt, gl, fid, uid⟩ := df
  rcases fid <;> rcases uid <;>
    simp [add_facility_id_unit_id_epa, CleanDF.nrows]

/-- C6: schema harmonization is idempotent: harmonizing a batch twice
gives the same batch as harmonizing it once (in particular a batch
already containing both columns is left unchanged). -/
theorem add_facility_id_unit_id_epa_idempotent (df : CleanDF) :
    add_facility_id_unit_id_epa (add_facility_id_unit_id_epa df) =
      add_facility_id_unit_id_epa df := by
  obtain ⟨pl, odt, gl, fid, uid⟩ := df
  rcases fid <;> rcases uid <;>
    simp [add_facility_id_unit_id_epa, CleanDF.nrows]

/-- C9: gross-load correction is not idempotent: it divides by 1000
exactly once per pass, so a value such as 2500001 is still above the
threshold after one pass and gets divided again by a second pass. -/
theorem correct_gross_load_mw_not_idempotent :
    correct_gross_load_mw
        (correct_gross_load_mw ⟨[54634], [0], [2500001], none, none⟩) ≠
      correct_gross_load_mw ⟨[54634], [0], [2500001], none, none⟩ ∧
    (correct_gross_load_mw ⟨[54634], [0], [2500001], none, none⟩).gross_load_mw =
      [2500001 / 1000] ∧
    (2000 : ℚ) < 2500001 / 1000 := by
  have h1 : correct_gross_load_mw ⟨[54634], [0], [2500001], none, none⟩ =
      ⟨[54634], [0], [(2500001 : ℚ) / 1000], none, none⟩ := rfl
  have hlt : (2000 : ℚ) < 2500001 / 1000 := by norm_num
  refine ⟨?_, by rw [h1], hlt⟩
  rw [h1]
  have h2 : correct_gross_load_mw
      ⟨[54634], [0], [(2500001 : ℚ) / 1000], none, none⟩ =
      ⟨[54634], [0],
        [(2500001 : ℚ) / 1000 / 1000], none, none⟩ := by
    have hb : ((2500001 : ℚ) / 1000 :: ([] : List ℚ)).map
        (fun g => decide (2000 < g)) = [true] := by
      simp [decide_eq_true_eq, hlt]
    simp only [correct_gross_load_mw, hb, List.any_cons, List.any_nil,
      id_eq, Bool.or_false, if_true]
    simp [hlt]
  rw [h2]
  intro hcontra
  have := congrArg CleanDF.gross_load_mw hcontra
  simp only [List.cons.injEq, and_true] at this
  have : (2500001 : ℚ) / 1000 / 1000 = 2500001 / 1000 := this
  norm_num at this

/-- C1: on any batch, `fix_up_dates` succeeds when every record's
plant id has an entry in the offset registry; and when one or more
plant ids are absent it produces no output batch, raising an error that
carries exactly the distinct list of offending plant ids (no
duplicates, and an id is listed iff it occurs in the batch with no
registry entry). -/
theorem fix_up_dates_offset_invariant (df : RawDF) (reg : List (Int × Int)) :
    ((∀ p ∈ df.plant_id_eia, (lookupOffset reg p).isSome) →
        (fix_up_dates df reg).isOk = true) ∧
      ((∃ p ∈ df.plant_id_eia, (lookupOffset reg p).isNone) →
        ∃ e, fix_up_dates df reg = .error e ∧ e.Nodup ∧
          ∀ x, x ∈ e ↔ x ∈ df.plant_id_eia ∧ (lookupOffset reg x).isNone) := by
  constructor
  · intro h
    rw [fix_up_dates]
    simp only [map_lookup_all_isSome h, if_true]
    rfl
  · rintro ⟨p, hp, hnone⟩
    have hall : (df.plant_id_eia.map (lookupOffset reg)).all Option.isSome = false := by
      rw [Bool.eq_false_iff]
      intro hall
      have := List.all_eq_true.mp hall (lookupOffset reg p)
        (List.mem_map.mpr ⟨p, hp, rfl⟩)
      rw [Option.isNone_iff_eq_none.mp hnone] at this
      exact Bool.false_ne_true this
    refine ⟨pdUnique
        ((df.plant_id_eia.zip (df.plant_id_eia.map (lookupOffset reg))).filterMap
          (fun po => if po.2.isNone then some po.1 else none)),
      ?_, nodup_pdUnique _, fun x => ?_⟩
    · rw [fix_up_dates]
      simp [hall]
    · rw [zip_map_filterMap_isNone (lookupOffset reg) df.plant_id_eia,
        mem_pdUnique]
      simp [List.mem_filter]

/-- C1 witness: a batch whose two plants are both in the registry
resolves, and a batch with plants 7, 8, 7 absent from the registry
fails with an error carrying exactly the distinct offenders. -/
theorem fix_up_dates_offset_invariant_witness :
    (fix_up_dates ⟨[1, 2], [⟨2015, 1, 1⟩, ⟨2015, 1, 1⟩], [0, 1], [],
        none, none⟩ [(1, -300), (2, 60)]).isOk = true ∧
    (∃ e, fix_up_dates ⟨[7, 8, 7], [⟨2015, 1, 1⟩, ⟨2015, 1, 1⟩, ⟨2015, 1, 1⟩],
        [0, 1, 2], [], none, none⟩ [(1, -300), (2, 60)] = .error e ∧ e.Nodup ∧
      ∀ x, x ∈ e ↔ x ∈ [(7 : Int), 8, 7] ∧
        (lookupOffset [(1, -300), (2, 60)] x).isNone) :=
  ⟨(fix_up_dates_offset_invariant ⟨[1, 2], [⟨2015, 1, 1⟩, ⟨2015, 1, 1⟩], [0, 1],
      [], none, none⟩ [(1, -300), (2, 60)]).1 (by decide),
   (fix_up_dates_offset_invariant ⟨[7, 8, 7], [⟨2015, 1, 1⟩, ⟨2015, 1, 1⟩,
      ⟨2015, 1, 1⟩], [0, 1, 2], [], none, none⟩ [(1, -300), (2, 60)]).2
      ⟨7, by decide, by decide⟩⟩

/-- C2 (code bug exhibit): for a record with local date 2016-07-04,
local hour 23 and a registry offset of -5 hours (-300 minutes), the
code computes `op_datetime_naive + utc_offset`, i.e.
2016-07-04T18:00:00, whereas converting that local time to UTC (as the
column name, the surrounding comments and the spec require) yields
2016-07-05T04:00:00Z: the offset is applied with the wrong sign. -/
theorem fix_up_dates_utc_sign_bug :
    fix_up_dates ⟨[3], [⟨2016, 7, 4⟩], [23], [1500], some [some 9], some [some 9]⟩
        [(3, -300)] =
      .ok ⟨[3], [utcMinutes 2016 7 4 18 0], [1500], some [some 9], some [some 9]⟩ ∧
    utcMinutes 2016 7 4 18 0 ≠ utcMinutes 2016 7 5 4 0 := by
  constructor
  · rfl
  · decide

/-- C10: `fix_up_dates` performs no range check on `op_hour`: for every
integer `h` and every record whose plant has a registry offset, it
succeeds and the timestamp is midnight of the date plus `h` hours plus
the offset, so an hour like 24 silently rolls into the next calendar
day. -/
theorem fix_up_dates_no_hour_range_check (y m d h p off : Int) (gl : List ℚ)
    (fid uid : Option (List (Option Int))) (reg : List (Int × Int))
    (hreg : lookupOffset reg p = some off) :
    fix_up_dates ⟨[p], [⟨y, m, d⟩], [h], gl, fid, uid⟩ reg =
      .ok ⟨[p], [dateToMinutes ⟨y, m, d⟩ + h * 60 + off], gl, fid, uid⟩ := by
  rw [fix_up_dates]
  simp [hreg]

/-- C10 witness: with a zero offset for plant 1, the out-of-range hour
24 on 2015-01-01 resolves without error to midnight of 2015-01-02. -/
theorem fix_up_dates_no_hour_range_check_witness :
    lookupOffset [(1, 0)] 1 = some 0 ∧
    fix_up_dates ⟨[1], [⟨2015, 1, 1⟩], [24], [], none, none⟩ [(1, 0)] =
      .ok ⟨[1], [utcMinutes 2015 1 2 0 0], [], none, none⟩ :=
  ⟨by decide,
   (fix_up_dates_no_hour_range_check 2015 1 1 24 1 0 [] none none [(1, 0)]
      (by decide)).trans (by decide)⟩

theorem transformGo_ok (fillna : RawDF → RawDF) (reg : List (Int × Int))
    (l : List (String × RawDF))
    (h : ∀ q ∈ l, (transformBatch fillna reg q.2).isOk = true) :
    transformGo fillna reg l =
      .ok (l.map (fun q => (q.1, okValue (transformBatch fillna reg q.2)))) := by
  induction l with
  | nil => rfl
  | cons q rest ih =>
    obtain ⟨yr_st, raw_df⟩ := q
    have hq := h _ (List.mem_cons_self _ _)
    have hrest := ih fun r hr => h r (List.mem_cons_of_mem _ hr)
    rw [transformGo]
    cases hb : transformBatch fillna reg raw_df with
    | error e =>
      rw [hb] at hq
      exact absurd hq (by simp [Except.isOk, Except.toBool])
    | ok df =>
      rw [hrest]
      simp [hb, okValue]

/-- C3: for every finite stream of raw batches on which no per-batch
stage raises, `transform` yields exactly one cleaned batch per raw
batch, in input order, under the same batch key, and each output batch
is the result of the pipe fill-defaults → `harmonize_eia_epa_orispl` →
`fix_up_dates` (against the registry built once by
`_load_plant_utc_offset`) → `add_facility_id_unit_id_epa` →
`correct_gross_load_mw` on the corresponding raw batch. -/
theorem transform_stream_functional (fillna : RawDF → RawDF)
    (tzOffsetJan1 : String → Int)
    (plants_entity : List (Option Int × Option String))
    (epacems_raw_dfs : List (List (String × RawDF)))
    (h : ∀ q ∈ epacems_raw_dfs.flatten,
      (transformBatch fillna
        (_load_plant_utc_offset tzOffsetJan1 plants_entity) q.2).isOk = true) :
    transform fillna tzOffsetJan1 plants_entity epacems_raw_dfs =
      .ok (epacems_raw_dfs.flatten.map (fun q => (q.1,
        okValue (transformBatch fillna
          (_load_plant_utc_offset tzOffsetJan1 plants_entity) q.2)))) ∧
    (epacems_raw_dfs.flatten.map (fun q => (q.1,
        okValue (transformBatch fillna
          (_load_plant_utc_offset tzOffsetJan1 plants_entity) q.2)))).length =
      epacems_raw_dfs.flatten.length :=
  ⟨transformGo_ok fillna _ epacems_raw_dfs.flatten h, List.length_map _ _⟩

/-- C3 witness: a two-dict stream of two batches transforms to two
cleaned batches in order, keys preserved. -/
theorem transform_stream_functional_witness :
    transform id (fun _ => 0) [(some 1, some "UTC")]
        [[("2015-AL", ⟨[1], [⟨2015, 1, 1⟩], [0], [1500], none, none⟩)],
         [("2016-TX", ⟨[], [], [], [], some [], none⟩)]] =
      .ok [("2015-AL", ⟨[1], [23667840], [1500], some [none], some [none]⟩),
           ("2016-TX", ⟨[], [], [], some [], some []⟩)] := by
  have h := transform_stream_functional id (fun _ => 0) [(some 1, some "UTC")]
    [[("2015-AL", ⟨[1], [⟨2015, 1, 1⟩], [0], [1500], none, none⟩)],
     [("2016-TX", ⟨[], [], [], [], some [], none⟩)]] (by decide)
  exact h.1.trans (by decide)

/-- C7: the registry builder `_load_plant_utc_offset` is a total
function that drops exactly the input rows with a missing field: every
fully-present row `(plant, tz)` contributes the entry
`(plant, offset-of-tz-at-January-1)`, every registry entry comes from
such a row, the registry has exactly one entry per retained row, and
its key list is exactly the retained plants in order. -/
theorem load_plant_utc_offset_spec (tzOffsetJan1 : String → Int)
    (plants_entity : List (Option Int × Option String)) :
    (∀ p tz, (some p, some tz) ∈ plants_entity →
        (p, tzOffsetJan1 tz) ∈ _load_plant_utc_offset tzOffsetJan1 plants_entity) ∧
      (∀ p off, (p, off) ∈ _load_plant_utc_offset tzOffsetJan1 plants_entity →
        ∃ tz, (some p, some tz) ∈ plants_entity ∧ off = tzOffsetJan1 tz) ∧
      (_load_plant_utc_offset tzOffsetJan1 plants_entity).length =
        (plants_entity.filter (fun r => r.1.isSome && r.2.isSome)).length ∧
      (_load_plant_utc_offset tzOffsetJan1 plants_entity).map Prod.fst =
        (plants_entity.filterMap dropnaRow).map Prod.fst := by
  refine ⟨?_, ?_, ?_, ?_⟩
  · intro p tz hmem
    exact List.mem_map.mpr ⟨(p, tz),
      List.mem_filterMap.mpr ⟨(some p, some tz), hmem, rfl⟩, rfl⟩
  · intro p off hmem
    obtain ⟨⟨a, tz⟩, hatz, heq⟩ := List.mem_map.mp hmem
    obtain ⟨⟨op, otz⟩, hrow, hdrop⟩ := List.mem_filterMap.mp hatz
    simp only [Prod.mk.injEq] at heq
    obtain ⟨ha, hoff⟩ := heq
    subst ha
    rcases op with _ | p0 <;> rcases otz with _ | tz0 <;>
      simp only [dropnaRow, Option.some.injEq, Prod.mk.injEq,
        reduceCtorEq] at hdrop
    obtain ⟨hp0, htz0⟩ := hdrop
    subst hp0
    subst htz0
    exact ⟨_, hrow, hoff.symm⟩
  · rw [_load_plant_utc_offset]
    simp only [List.length_map]
    induction plants_entity with
    | nil => rfl
    | cons r rest ih =>
      obtain ⟨op, otz⟩ := r
      rcases op with _ | p0 <;> rcases otz with _ | tz0 <;>
        simp [dropnaRow, List.filterMap_cons, List.filter_cons, ih]
  · rw [_load_plant_utc_offset]
    simp [List.map_map, Function.comp]

/-- C7 witness: a four-row plants table with one missing timezone and
one missing plant id yields a two-entry registry in row order. -/
theorem load_plant_utc_offset_spec_witness :
    ((1, -300) ∈ _load_plant_utc_offset
        (fun tz => if tz = "E" then -300 else 0)
        [(some 1, some "E"), (some 2, none), (none, some "E"), (some 3, some "U")]) ∧
    (∃ tz, ((some (1 : Int), some tz) ∈
        [(some (1 : Int), some "E"), (some 2, none), (none, some "E"),
          (some 3, some "U")]) ∧
      (-300 : Int) = (fun tz => if tz = "E" then (-300 : Int) else 0) tz) ∧
    (_load_plant_utc_offset (fun tz => if tz = "E" then -300 else 0)
        [(some 1, some "E"), (some 2, none), (none, some "E"),
          (some 3, some "U")]).length = 2 := by
  have h := load_plant_utc_offset_spec (fun tz => if tz = "E" then -300 else 0)
    [(some 1, some "E"), (some 2, none), (none, some "E"), (some 3, some "U")]
  exact ⟨h.1 1 "E" (by decide), h.2.1 1 (-300) (h.1 1 "E" (by decide)),
    h.2.2.1.trans (by decide)⟩

/-- C8: end to end, the single-record batch with plant 1, local date
2015-01-01, hour 0, gross load 3200 and no facility/unit columns, with
a registry giving plant 1 a zero offset and no default-fill, transforms
to the single batch with `operating_datetime_utc` 2015-01-01T00:00:00Z,
gross load 3.2 and NA facility/unit ids, the date and hour columns
gone. -/
theorem transform_end_to_end :
    transform id (fun _ => 0) [(some 1, some "UTC")]
        [[("2015-AL", ⟨[1], [⟨2015, 1, 1⟩], [0], [3200], none, none⟩)]] =
      .ok [("2015-AL",
        ⟨[1], [utcMinutes 2015 1 1 0 0], [16 / 5], some [none], some [none]⟩)] := by
  have h : transform id (fun _ => 0) [(some 1, some "UTC")]
      [[("2015-AL", ⟨[1], [⟨2015, 1, 1⟩], [0], [3200], none, none⟩)]] =
      .ok [("2015-AL",
        ⟨[1], [23667840], [(3200 : ℚ) / 1000], some [none], some [none]⟩)] := rfl
  rw [h]
  have h1 : (23667840 : Int) = utcMinutes 2015 1 1 0 0 := by decide
  have h2 : (3200 : ℚ) / 1000 = 16 / 5 := by norm_num
  rw [h1, h2]

end PudlEpacems
